import Mathlib

/-!
Shallow embedding of the strategy-configuration pipeline of
src/components/StrategyForm.tsx: the zod object schema StrategySchema
(declaration order, per-field coercion, range, enum checks, defaults),
the encoder toBase64 (JSON.stringify, UTF-8 byte expansion, base-64),
and the orchestration that derives the displayed payload and the
python invocation string from a safeParse result.
-/

set_option maxRecDepth 4000

/-- A JavaScript number as produced by Number(...): NaN, the two
infinities, or a finite value, modelled exactly as a rational. -/
inductive JsNum where
  | nan : JsNum
  | posInf : JsNum
  | negInf : JsNum
  | num : ℚ → JsNum
deriving DecidableEq

/-- A raw form value: form controls yield strings, the initial React
state holds already-typed numbers. -/
inductive RawVal where
  | str : String → RawVal
  | num : JsNum → RawVal
deriving DecidableEq

/-- JS WhiteSpace/LineTerminator characters stripped by ToNumber. -/
def isJsWs (c : Char) : Bool :=
  c == ' ' || c == '\t' || c == '\n' || c == '\r' ||
  c.toNat == 11 || c.toNat == 12 || c.toNat == 160 || c.toNat == 65279

/-- Strip leading and trailing JS whitespace. -/
def trimWs (cs : List Char) : List Char :=
  ((cs.dropWhile isJsWs).reverse.dropWhile isJsWs).reverse

/-- Value of a digit character in the given base (decimal digits plus
hex letters), as in the StrNumericLiteral grammar. -/
def charDigitVal (base : Nat) (c : Char) : Option Nat :=
  let v :=
    if '0' ≤ c ∧ c ≤ '9' then some (c.toNat - 48)
    else if 'a' ≤ c ∧ c ≤ 'f' then some (c.toNat - 87)
    else if 'A' ≤ c ∧ c ≤ 'F' then some (c.toNat - 55)
    else none
  match v with
  | some d => if d < base then some d else none
  | none => none

/-- Accumulate the value of a digit string in the given base; none on
any character outside the base's digit set. -/
def radixAux (base : Nat) (acc : Nat) : List Char → Option Nat
  | [] => some acc
  | c :: r =>
    match charDigitVal base c with
    | some d => radixAux base (acc * base + d) r
    | none => none

/-- Value of a non-empty digit string in the given base. -/
def digitsVal (base : Nat) : List Char → Option Nat
  | [] => none
  | c :: r => radixAux base 0 (c :: r)

/-- NonDecimalIntegerLiteral body after the 0x/0o/0b marker. -/
def radixNum (base : Nat) (cs : List Char) : JsNum :=
  match digitsVal base cs with
  | some n => JsNum.num (n : ℚ)
  | none => JsNum.nan

/-- Split at the first exponent marker e/E, as in DecimalLiteral. -/
def splitAtExp : List Char → List Char × Option (List Char)
  | [] => ([], none)
  | c :: r =>
    if c = 'e' ∨ c = 'E' then ([], some r)
    else
      let p := splitAtExp r
      (c :: p.1, p.2)

/-- Split at the first decimal point. -/
def splitAtDot : List Char → List Char × Option (List Char)
  | [] => ([], none)
  | c :: r =>
    if c = '.' then ([], some r)
    else
      let p := splitAtDot r
      (c :: p.1, p.2)

/-- Digit-string value defaulting to zero when empty (the integer or
fraction part of a DecimalLiteral may be empty, not both). -/
def digitsOrZero (cs : List Char) : Nat :=
  match digitsVal 10 cs with
  | some n => n
  | none => 0

/-- Mantissa of a decimal literal: digits, digits.digits, digits., or
.digits; anything else fails. -/
def parseMantissa (cs : List Char) : Option ℚ :=
  match splitAtDot cs with
  | (ip, none) => (digitsVal 10 ip).map (fun n => (n : ℚ))
  | (ip, some fp) =>
    if ip.isEmpty ∧ fp.isEmpty then none
    else if ip.all (fun c => (charDigitVal 10 c).isSome) ∧
            fp.all (fun c => (charDigitVal 10 c).isSome) then
      some ((digitsOrZero ip : ℚ) + (digitsOrZero fp : ℚ) / (10 : ℚ) ^ fp.length)
    else none

/-- ExponentPart body: optionally signed non-empty digit string. -/
def parseExp : List Char → Option Int
  | '+' :: r => (digitsVal 10 r).map (fun n => (n : Int))
  | '-' :: r => (digitsVal 10 r).map (fun n => -(n : Int))
  | cs => (digitsVal 10 cs).map (fun n => (n : Int))

/-- StrUnsignedDecimalLiteral without the Infinity production. -/
def parseDec (cs : List Char) : Option ℚ :=
  match splitAtExp cs with
  | (m, none) => parseMantissa m
  | (m, some e) =>
    match parseMantissa m, parseExp e with
    | some mv, some ev => some (mv * (10 : ℚ) ^ ev)
    | _, _ => none

/-- StrUnsignedDecimalLiteral with an already-consumed sign: Infinity
or a decimal literal; anything else is NaN. -/
def unsignedDec (neg : Bool) (cs : List Char) : JsNum :=
  if cs = ['I', 'n', 'f', 'i', 'n', 'i', 't', 'y'] then
    if neg then JsNum.negInf else JsNum.posInf
  else
    match parseDec cs with
    | some q => JsNum.num (if neg then -q else q)
    | none => JsNum.nan

/-- Trimmed, non-empty numeric-literal body: a sign admits only the
decimal/Infinity production; the radix forms take no sign. -/
def strToNumBody (cs : List Char) : JsNum :=
  match cs with
  | '+' :: rest => unsignedDec false rest
  | '-' :: rest => unsignedDec true rest
  | '0' :: 'x' :: rest => radixNum 16 rest
  | '0' :: 'X' :: rest => radixNum 16 rest
  | '0' :: 'o' :: rest => radixNum 8 rest
  | '0' :: 'O' :: rest => radixNum 8 rest
  | '0' :: 'b' :: rest => radixNum 2 rest
  | '0' :: 'B' :: rest => radixNum 2 rest
  | _ => unsignedDec false cs

/-- JS Number(string): trim whitespace, empty means zero, otherwise
the whole remainder must be a numeric literal, else NaN. -/
def jsStringToNumber (s : String) : JsNum :=
  let cs := trimWs s.data
  if cs = [] then JsNum.num 0 else strToNumBody cs

/-- JS Number(value) on a raw form value, as run by z.coerce.number():
numbers pass through, strings go through ToNumber. -/
def jsToNumber : RawVal → JsNum
  | RawVal.str s => jsStringToNumber s
  | RawVal.num n => n

/-- Field names of StrategySchema, in declaration order. -/
inductive FieldName where
  | symbols | timeframe | riskPerTradePct | maxOpenPositions
  | emaFast | emaSlow | rsiPeriod | atrPeriod
  | atrStopMultiplier | takeProfitRMultiple | trailingStopATR
  | dailyLossLimitPct | maxDrawdownPct | liveTrading | magicNumber
deriving DecidableEq

/-- Kind of field-level issue reported by safeParse: a type/coercion
failure (invalid_type, including the integrality check), a closed
interval violation (too_small/too_big), or an enum mismatch. -/
inductive ErrKind where
  | coercion | range | membership
deriving DecidableEq

/-- One field-level violation: the field, the offending raw value and
the violated constraint. -/
structure Violation where
  field : FieldName
  raw : RawVal
  kind : ErrKind
deriving DecidableEq

/-- The raw edit state handed to safeParse: a snapshot mapping each
declared field to an optional raw value (absent means undefined). -/
structure RawState where
  symbols : Option RawVal := none
  timeframe : Option RawVal := none
  riskPerTradePct : Option RawVal := none
  maxOpenPositions : Option RawVal := none
  emaFast : Option RawVal := none
  emaSlow : Option RawVal := none
  rsiPeriod : Option RawVal := none
  atrPeriod : Option RawVal := none
  atrStopMultiplier : Option RawVal := none
  takeProfitRMultiple : Option RawVal := none
  trailingStopATR : Option RawVal := none
  dailyLossLimitPct : Option RawVal := none
  maxDrawdownPct : Option RawVal := none
  liveTrading : Option RawVal := none
  magicNumber : Option RawVal := none
deriving DecidableEq

/-- The validated configuration (z.infer of StrategySchema), fields in
schema declaration order; numbers are finite by validation. -/
structure StrategyConfig where
  symbols : String
  timeframe : String
  riskPerTradePct : ℚ
  maxOpenPositions : ℚ
  emaFast : ℚ
  emaSlow : ℚ
  rsiPeriod : ℚ
  atrPeriod : ℚ
  atrStopMultiplier : ℚ
  takeProfitRMultiple : ℚ
  trailingStopATR : ℚ
  dailyLossLimitPct : ℚ
  maxDrawdownPct : ℚ
  liveTrading : String
  magicNumber : ℚ
deriving DecidableEq

/-- z.string().default(d): absent takes the default, a string passes
through unchecked, a number is an invalid_type failure. -/
def checkString (f : FieldName) (dflt : String) :
    Option RawVal → List Violation × String
  | none => ([], dflt)
  | some (RawVal.str s) => ([], s)
  | some r => ([⟨f, r, ErrKind.coercion⟩], dflt)

/-- z.enum(tokens).default(d): absent takes the default, a present
string must be an exact, case-sensitive member of the token list. -/
def checkEnum (f : FieldName) (tokens : List String) (dflt : String) :
    Option RawVal → List Violation × String
  | none => ([], dflt)
  | some (RawVal.str s) =>
    if s ∈ tokens then ([], s) else ([⟨f, RawVal.str s, ErrKind.membership⟩], dflt)
  | some r => ([⟨f, r, ErrKind.membership⟩], dflt)

/-- z.coerce.number()[.int()].min(lo).max(hi).default(d): absent takes
the default; otherwise run Number(...) on the value; NaN is a fatal
invalid_type; infinities and finite values then run the int, min and
max checks in declaration order, each contributing one issue. -/
def checkNum (f : FieldName) (isInt : Bool) (lo hi dflt : ℚ) :
    Option RawVal → List Violation × ℚ
  | none => ([], dflt)
  | some r =>
    match jsToNumber r with
    | JsNum.nan => ([⟨f, r, ErrKind.coercion⟩], dflt)
    | JsNum.posInf =>
      ((if isInt then [⟨f, r, ErrKind.coercion⟩] else []) ++ [⟨f, r, ErrKind.range⟩], dflt)
    | JsNum.negInf =>
      ((if isInt then [⟨f, r, ErrKind.coercion⟩] else []) ++ [⟨f, r, ErrKind.range⟩], dflt)
    | JsNum.num q =>
      ((if isInt ∧ q.den ≠ 1 then [⟨f, r, ErrKind.coercion⟩] else []) ++
       (if q < lo then [⟨f, r, ErrKind.range⟩] else []) ++
       (if hi < q then [⟨f, r, ErrKind.range⟩] else []), q)

/-- The timeframe enumeration of StrategySchema. -/
def tfTokens : List String := ["M1", "M5", "M15", "M30", "H1", "H4", "D1"]

/-- The liveTrading enumeration of StrategySchema. -/
def liveTokens : List String := ["false", "true"]

/-- StrategySchema.safeParse: run every field check in declaration
order, collect all issues; only a fully clean pass yields a config. -/
def safeParse (raw : RawState) : Except (List Violation) StrategyConfig :=
  let p1 := checkString FieldName.symbols "EURUSD,GBPUSD" raw.symbols
  let p2 := checkEnum FieldName.timeframe tfTokens "M15" raw.timeframe
  let p3 := checkNum FieldName.riskPerTradePct false 0 10 1 raw.riskPerTradePct
  let p4 := checkNum FieldName.maxOpenPositions true 1 20 3 raw.maxOpenPositions
  let p5 := checkNum FieldName.emaFast true 2 200 50 raw.emaFast
  let p6 := checkNum FieldName.emaSlow true 5 400 200 raw.emaSlow
  let p7 := checkNum FieldName.rsiPeriod true 2 50 14 raw.rsiPeriod
  let p8 := checkNum FieldName.atrPeriod true 5 100 14 raw.atrPeriod
  let p9 := checkNum FieldName.atrStopMultiplier false (1/10) 10 2 raw.atrStopMultiplier
  let p10 := checkNum FieldName.takeProfitRMultiple false (1/10) 10 2 raw.takeProfitRMultiple
  let p11 := checkNum FieldName.trailingStopATR false 0 10 (3/2) raw.trailingStopATR
  let p12 := checkNum FieldName.dailyLossLimitPct false 0 50 5 raw.dailyLossLimitPct
  let p13 := checkNum FieldName.maxDrawdownPct false 0 90 20 raw.maxDrawdownPct
  let p14 := checkEnum FieldName.liveTrading liveTokens "false" raw.liveTrading
  let p15 := checkNum FieldName.magicNumber true 1 999999 424242 raw.magicNumber
  let errs := p1.1 ++ p2.1 ++ p3.1 ++ p4.1 ++ p5.1 ++ p6.1 ++ p7.1 ++ p8.1 ++
    p9.1 ++ p10.1 ++ p11.1 ++ p12.1 ++ p13.1 ++ p14.1 ++ p15.1
  if errs.isEmpty then
    Except.ok ⟨p1.2, p2.2, p3.2, p4.2, p5.2, p6.2, p7.2, p8.2,
      p9.2, p10.2, p11.2, p12.2, p13.2, p14.2, p15.2⟩
  else Except.error errs

/-- The empty raw-state mapping: every field absent. -/
def emptyRaw : RawState := {}

/-- The documented default configuration, also the component's initial
React state (lines 34-50 of StrategyForm.tsx). -/
def defaultConfig : StrategyConfig :=
  ⟨"EURUSD,GBPUSD", "M15", 1, 3, 50, 200, 14, 14, 2, 2, 3/2, 5, 20, "false", 424242⟩

/-- Overwrite one field of a raw state with a present value, as the
component's handleChange merges a single edit into the state. -/
def setField (r : RawState) (f : FieldName) (v : RawVal) : RawState :=
  match f with
  | FieldName.symbols => { r with symbols := some v }
  | FieldName.timeframe => { r with timeframe := some v }
  | FieldName.riskPerTradePct => { r with riskPerTradePct := some v }
  | FieldName.maxOpenPositions => { r with maxOpenPositions := some v }
  | FieldName.emaFast => { r with emaFast := some v }
  | FieldName.emaSlow => { r with emaSlow := some v }
  | FieldName.rsiPeriod => { r with rsiPeriod := some v }
  | FieldName.atrPeriod => { r with atrPeriod := some v }
  | FieldName.atrStopMultiplier => { r with atrStopMultiplier := some v }
  | FieldName.takeProfitRMultiple => { r with takeProfitRMultiple := some v }
  | FieldName.trailingStopATR => { r with trailingStopATR := some v }
  | FieldName.dailyLossLimitPct => { r with dailyLossLimitPct := some v }
  | FieldName.maxDrawdownPct => { r with maxDrawdownPct := some v }
  | FieldName.liveTrading => { r with liveTrading := some v }
  | FieldName.magicNumber => { r with magicNumber := some v }

/-- Hex digit character for JSON control-character escapes. -/
def hexDig (n : Nat) : Char :=
  if n < 10 then Char.ofNat (48 + n) else Char.ofNat (87 + n)

/-- JSON.stringify escaping of one character. -/
def escChar (c : Char) : List Char :=
  if c = '\x22' then ['\\', '\x22']
  else if c = '\\' then ['\\', '\\']
  else if c = '\n' then ['\\', 'n']
  else if c = '\r' then ['\\', 'r']
  else if c = '\t' then ['\\', 't']
  else if c.toNat = 8 then ['\\', 'b']
  else if c.toNat = 12 then ['\\', 'f']
  else if c.toNat < 32 then
    ['\\', 'u', '0', '0', hexDig (c.toNat / 16), hexDig (c.toNat % 16)]
  else [c]

/-- JSON.stringify of a string value, double-quoted and escaped. -/
def qstr (s : String) : String :=
  "\x22" ++ String.mk (s.data.map escChar).flatten ++ "\x22"

/-- Strip factors p from n, returning the multiplicity and cofactor;
fuel-driven (n itself is always enough fuel). -/
def factorOutAux (p : Nat) : Nat → Nat → Nat × Nat
  | 0, n => (0, n)
  | fuel + 1, n =>
    if 2 ≤ p ∧ n ≠ 0 ∧ n % p = 0 then
      let r := factorOutAux p fuel (n / p)
      (r.1 + 1, r.2)
    else (0, n)

/-- Multiplicity of p in n with the remaining cofactor. -/
def factorOut (p n : Nat) : Nat × Nat := factorOutAux p n n

/-- Left-pad a digit string with zeros to the given width. -/
def padZeros (k : Nat) (s : String) : String :=
  String.mk (List.replicate (k - s.length) '0') ++ s

/-- JSON.stringify of a number. JS numbers are binary floats, so every
value reachable from the source has a 10-smooth denominator and a
finite decimal expansion, printed here exactly (JS switches to
exponent notation only beyond 1e21 / below 1e-6, a regime no claim
exercises); the non-10-smooth fallback is unreachable from the source
value space and mirrors JSON.stringify's null for non-finite input. -/
def numToJson (q : ℚ) : String :=
  let sign := if q.num < 0 then "-" else ""
  let na := q.num.natAbs
  let f2 := factorOut 2 q.den
  let f5 := factorOut 5 f2.2
  if f5.2 ≠ 1 then "null"
  else
    let k := max f2.1 f5.1
    let scaled := na * 10 ^ k / q.den
    if k = 0 then sign ++ Nat.repr scaled
    else sign ++ Nat.repr (scaled / 10 ^ k) ++ "." ++
      padZeros k (Nat.repr (scaled % 10 ^ k))

/-- JSON.stringify(parsed.data): object notation with the fifteen keys
in schema declaration order, enum fields as string tokens, numeric
fields as bare numbers. -/
def serializeConfig (c : StrategyConfig) : String :=
  "\x7b" ++
  "\x22symbols\x22:" ++ qstr c.symbols ++
  ",\x22timeframe\x22:" ++ qstr c.timeframe ++
  ",\x22riskPerTradePct\x22:" ++ numToJson c.riskPerTradePct ++
  ",\x22maxOpenPositions\x22:" ++ numToJson c.maxOpenPositions ++
  ",\x22emaFast\x22:" ++ numToJson c.emaFast ++
  ",\x22emaSlow\x22:" ++ numToJson c.emaSlow ++
  ",\x22rsiPeriod\x22:" ++ numToJson c.rsiPeriod ++
  ",\x22atrPeriod\x22:" ++ numToJson c.atrPeriod ++
  ",\x22atrStopMultiplier\x22:" ++ numToJson c.atrStopMultiplier ++
  ",\x22takeProfitRMultiple\x22:" ++ numToJson c.takeProfitRMultiple ++
  ",\x22trailingStopATR\x22:" ++ numToJson c.trailingStopATR ++
  ",\x22dailyLossLimitPct\x22:" ++ numToJson c.dailyLossLimitPct ++
  ",\x22maxDrawdownPct\x22:" ++ numToJson c.maxDrawdownPct ++
  ",\x22liveTrading\x22:" ++ qstr c.liveTrading ++
  ",\x22magicNumber\x22:" ++ numToJson c.magicNumber ++
  "\x7d"

/-- UTF-8 bytes of one code point, the expansion performed by
unescape(encodeURIComponent(...)) before btoa. -/
def utf8CharBytes (n : Nat) : List Nat :=
  if n < 128 then [n]
  else if n < 2048 then [192 + n / 64, 128 + n % 64]
  else if n < 65536 then [224 + n / 4096, 128 + n / 64 % 64, 128 + n % 64]
  else [240 + n / 262144, 128 + n / 4096 % 64, 128 + n / 64 % 64, 128 + n % 64]

/-- UTF-8 byte sequence of a string. -/
def utf8Encode (s : String) : List Nat :=
  (s.data.map (fun c => utf8CharBytes c.toNat)).flatten

/-- The base-64 alphabet character for a sextet. -/
def b64Char (n : Nat) : Char :=
  if n < 26 then Char.ofNat (65 + n)
  else if n < 52 then Char.ofNat (97 + (n - 26))
  else if n < 62 then Char.ofNat (48 + (n - 52))
  else if n = 62 then '+'
  else '/'

/-- btoa: standard base-64 over 8-bit bytes, with '=' padding and no
line wrapping. -/
def b64encodeAux : List Nat → List Char
  | [] => []
  | [a] => [b64Char (a / 4), b64Char (a % 4 * 16), '=', '=']
  | [a, b] => [b64Char (a / 4), b64Char (a % 4 * 16 + b / 16), b64Char (b % 16 * 4), '=']
  | a :: b :: c :: rest =>
    b64Char (a / 4) :: b64Char (a % 4 * 16 + b / 16) ::
    b64Char (b % 16 * 4 + c / 64) :: b64Char (c % 64) :: b64encodeAux rest

/-- btoa of a byte sequence, as a string. -/
def b64encodeBytes (l : List Nat) : String := String.mk (b64encodeAux l)

/-- Sextet value of a base-64 alphabet character (zero off-alphabet). -/
def b64val (c : Char) : Nat :=
  if 'A' ≤ c ∧ c ≤ 'Z' then c.toNat - 65
  else if 'a' ≤ c ∧ c ≤ 'z' then c.toNat - 97 + 26
  else if '0' ≤ c ∧ c ≤ '9' then c.toNat - 48 + 52
  else if c = '+' then 62
  else 63

/-- atob: decode four base-64 characters to three bytes, honouring the
'=' padding forms the encoder emits. -/
def b64decodeAux : List Char → List Nat
  | c1 :: c2 :: c3 :: c4 :: rest =>
    if c3 = '=' then [b64val c1 * 4 + b64val c2 / 16]
    else if c4 = '=' then
      [b64val c1 * 4 + b64val c2 / 16, b64val c2 % 16 * 16 + b64val c3 / 4]
    else
      (b64val c1 * 4 + b64val c2 / 16) :: (b64val c2 % 16 * 16 + b64val c3 / 4) ::
      (b64val c3 % 4 * 64 + b64val c4) :: b64decodeAux rest
  | _ => []

/-- atob of a base-64 string, as a byte sequence. -/
def b64decodeBytes (s : String) : List Nat := b64decodeAux s.data

/-- toBase64 (StrategyForm.tsx lines 27-31): in the browser,
btoa(unescape(encodeURIComponent(JSON.stringify(json)))); when window
is undefined (server rendering) it returns the empty string. -/
def toBase64 (windowDefined : Bool) (c : StrategyConfig) : String :=
  if windowDefined then b64encodeBytes (utf8Encode (serializeConfig c))
  else ""

/-- The displayed payload (line 60): the encoder output on success,
the empty string on a failed parse. -/
def b64Out (windowDefined : Bool) (raw : RawState) : String :=
  match safeParse raw with
  | Except.ok c => toBase64 windowDefined c
  | Except.error _ => ""

/-- The executor command head of line 62. -/
def cmdHead : String := "python mt5_connector/connector.py --config-b64 \x27"

/-- The displayed invocation string (lines 61-63): the literal command
with the payload single-quoted on success, empty on failure. -/
def pythonCmd (windowDefined : Bool) (raw : RawState) : String :=
  match safeParse raw with
  | Except.ok c => cmdHead ++ toBase64 windowDefined c ++ "\x27"
  | Except.error _ => ""

/-- True exactly on a successful parse result. -/
def exOk {ε α : Type} : Except ε α → Bool
  | Except.ok _ => true
  | Except.error _ => false

theorem b64val_b64Char : ∀ n : Nat, n < 64 → b64val (b64Char n) = n := by decide

theorem b64Char_ne_pad : ∀ n : Nat, n < 64 → b64Char n ≠ '=' := by decide

theorem b64_roundtrip_aux :
    ∀ l : List Nat, (∀ b ∈ l, b < 256) → b64decodeAux (b64encodeAux l) = l := by
  intro l
  induction l using b64encodeAux.induct with
  | case1 => intro _; rfl
  | case2 a =>
    intro h
    have ha : a < 256 := h a (by simp)
    have h1 : a / 4 < 64 := by omega
    have h2 : a % 4 * 16 < 64 := by omega
    simp only [b64encodeAux, b64decodeAux]
    rw [if_pos trivial]
    rw [b64val_b64Char _ h1, b64val_b64Char _ h2]
    congr 1
    omega
  | case3 a b =>
    intro h
    have ha : a < 256 := h a (by simp)
    have hb : b < 256 := h b (by simp)
    have h1 : a / 4 < 64 := by omega
    have h2 : a % 4 * 16 + b / 16 < 64 := by omega
    have h3 : b % 16 * 4 < 64 := by omega
    simp only [b64encodeAux, b64decodeAux]
    rw [if_neg (b64Char_ne_pad _ h3), if_pos trivial]
    rw [b64val_b64Char _ h1, b64val_b64Char _ h2, b64val_b64Char _ h3]
    congr 1
    · omega
    congr 1
    omega
  | case4 a b c rest ih =>
    intro h
    have ha : a < 256 := h a (by simp)
    have hb : b < 256 := h b (by simp)
    have hc : c < 256 := h c (by simp)
    have h1 : a / 4 < 64 := by omega
    have h2 : a % 4 * 16 + b / 16 < 64 := by omega
    have h3 : b % 16 * 4 + c / 64 < 64 := by omega
    have h4 : c % 64 < 64 := by omega
    simp only [b64encodeAux, b64decodeAux]
    rw [if_neg (b64Char_ne_pad _ h3), if_neg (b64Char_ne_pad _ h4)]
    rw [b64val_b64Char _ h1, b64val_b64Char _ h2, b64val_b64Char _ h3, b64val_b64Char _ h4]
    rw [ih (by intro x hx; exact h x (by simp [hx]))]
    congr 1
    · omega
    congr 1
    · omega
    congr 1
    omega

theorem utf8CharBytes_lt (n : Nat) (hn : n < 1114112) :
    ∀ b ∈ utf8CharBytes n, b < 256 := by
  intro b hb
  unfold utf8CharBytes at hb
  split at hb
  · simp at hb; omega
  · split at hb
    · simp at hb; rcases hb with h | h <;> omega
    · split at hb
      · simp at hb; rcases hb with h | h | h <;> omega
      · simp at hb; rcases hb with h | h | h | h <;> omega

theorem charToNat_lt (c : Char) : c.toNat < 1114112 := by
  rcases c.valid with h | ⟨h1, h2⟩
  · exact Nat.lt_trans h (by decide)
  · exact h2

theorem utf8Encode_lt (s : String) : ∀ b ∈ utf8Encode s, b < 256 := by
  intro b hb
  unfold utf8Encode at hb
  rcases List.mem_flatten.mp hb with ⟨l, hl, hbl⟩
  rcases List.mem_map.mp hl with ⟨c, _, rfl⟩
  exact utf8CharBytes_lt c.toNat (charToNat_lt c) b hbl

theorem b64encodeBytes_decode (l : List Nat) (h : ∀ b ∈ l, b < 256) :
    b64decodeBytes (b64encodeBytes l) = l := by
  unfold b64decodeBytes b64encodeBytes
  exact b64_roundtrip_aux l h

def b64AlphabetStr : String :=
  "ABCDEFGHIJKLMNOPQRSTUVWXYZabcdefghijklmnopqrstuvwxyz0123456789+/="

theorem b64Char_mem (n : Nat) : b64Char n ∈ b64AlphabetStr.data := by
  by_cases h : n < 64
  · exact (by decide : ∀ m, m < 64 → b64Char m ∈ b64AlphabetStr.data) n h
  · have he : b64Char n = '/' := by
      unfold b64Char
      rw [if_neg (by omega), if_neg (by omega), if_neg (by omega), if_neg (by omega)]
    rw [he]
    decide

theorem b64encodeAux_subset :
    ∀ l : List Nat, ∀ ch ∈ b64encodeAux l, ch ∈ b64AlphabetStr.data := by
  intro l
  induction l using b64encodeAux.induct with
  | case1 => intro ch h; simp [b64encodeAux] at h
  | case2 a =>
    intro ch h
    simp only [b64encodeAux, List.mem_cons, List.not_mem_nil, or_false] at h
    rcases h with rfl | rfl | rfl | rfl
    · exact b64Char_mem _
    · exact b64Char_mem _
    · decide
    · decide
  | case3 a b =>
    intro ch h
    simp only [b64encodeAux, List.mem_cons, List.not_mem_nil, or_false] at h
    rcases h with rfl | rfl | rfl | rfl
    · exact b64Char_mem _
    · exact b64Char_mem _
    · exact b64Char_mem _
    · decide
  | case4 a b c rest ih =>
    intro ch h
    simp only [b64encodeAux, List.mem_cons] at h
    rcases h with rfl | rfl | rfl | rfl | h
    · exact b64Char_mem _
    · exact b64Char_mem _
    · exact b64Char_mem _
    · exact b64Char_mem _
    · exact ih ch h

instance {ε α : Type} [DecidableEq ε] [DecidableEq α] : DecidableEq (Except ε α) := by
  intro x y
  cases x <;> cases y <;> first
    | exact isFalse (by intro h; exact Except.noConfusion h)
    | exact decidable_of_iff _ (by rw [Except.error.injEq])
    | exact decidable_of_iff _ (by rw [Except.ok.injEq])

/-- C1: Round-trip: for every StrategyConfig c (in the browser
environment, where the encoder actually encodes), base-64-decoding the
payload produced by toBase64 yields exactly the UTF-8 bytes of the
canonical JSON serialization of c, i.e. decode(encode(c).payload) =
serialize(c). -/
theorem c1_round_trip (c : StrategyConfig) :
    b64decodeBytes (toBase64 true c) = utf8Encode (serializeConfig c) := by
  unfold toBase64
  rw [if_pos rfl]
  exact b64encodeBytes_decode _ (utf8Encode_lt _)

/-- C2: Failure gating: whenever safeParse fails, both the displayed
payload and the invocation string are the empty string; conversely a
non-empty payload or invocation string occurs only on a successful
parse. -/
theorem c2_failure_gating :
    (∀ (wd : Bool) (raw : RawState) (errs : List Violation),
      safeParse raw = Except.error errs →
      b64Out wd raw = "" ∧ pythonCmd wd raw = "") ∧
    (∀ (wd : Bool) (raw : RawState),
      (b64Out wd raw ≠ "" ∨ pythonCmd wd raw ≠ "") →
      exOk (safeParse raw) = true) := by
  constructor
  · intro wd raw errs h
    constructor <;> simp [b64Out, pythonCmd, h]
  · intro wd raw h
    cases hv : safeParse raw with
    | ok c => simp [exOk]
    | error e =>
      exfalso
      rcases h with h | h <;> simp [b64Out, pythonCmd, hv] at h

/-- C2 witness: the concrete invalid edit timeframe := "M16" produces
a blank payload and a blank invocation string. -/
theorem c2_failure_gating_witness :
    b64Out true (setField emptyRaw FieldName.timeframe (RawVal.str "M16")) = "" ∧
    pythonCmd true (setField emptyRaw FieldName.timeframe (RawVal.str "M16")) = "" :=
  c2_failure_gating.1 true _
    [⟨FieldName.timeframe, RawVal.str "M16", ErrKind.membership⟩] rfl

/-- C3: Default completeness: parsing the empty raw mapping succeeds
and returns exactly the documented default configuration; moreover any
field absent from the raw input of a successful parse is filled with
its fixed default. -/
theorem c3_default_completeness :
    safeParse emptyRaw = Except.ok defaultConfig ∧
    (∀ (raw : RawState) (c : StrategyConfig), safeParse raw = Except.ok c →
      (raw.symbols = none → c.symbols = "EURUSD,GBPUSD") ∧
      (raw.timeframe = none → c.timeframe = "M15") ∧
      (raw.riskPerTradePct = none → c.riskPerTradePct = 1) ∧
      (raw.maxOpenPositions = none → c.maxOpenPositions = 3) ∧
      (raw.emaFast = none → c.emaFast = 50) ∧
      (raw.emaSlow = none → c.emaSlow = 200) ∧
      (raw.rsiPeriod = none → c.rsiPeriod = 14) ∧
      (raw.atrPeriod = none → c.atrPeriod = 14) ∧
      (raw.atrStopMultiplier = none → c.atrStopMultiplier = 2) ∧
      (raw.takeProfitRMultiple = none → c.takeProfitRMultiple = 2) ∧
      (raw.trailingStopATR = none → c.trailingStopATR = 3/2) ∧
      (raw.dailyLossLimitPct = none → c.dailyLossLimitPct = 5) ∧
      (raw.maxDrawdownPct = none → c.maxDrawdownPct = 20) ∧
      (raw.liveTrading = none → c.liveTrading = "false") ∧
      (raw.magicNumber = none → c.magicNumber = 424242)) := by
  constructor
  · rfl
  · intro raw c h
    simp only [safeParse] at h
    split at h
    · injection h with h'
      subst h'
      refine ⟨fun hn => by rw [hn]; rfl, fun hn => by rw [hn]; rfl, fun hn => by rw [hn]; rfl,
        fun hn => by rw [hn]; rfl, fun hn => by rw [hn]; rfl, fun hn => by rw [hn]; rfl,
        fun hn => by rw [hn]; rfl, fun hn => by rw [hn]; rfl, fun hn => by rw [hn]; rfl,
        fun hn => by rw [hn]; rfl, fun hn => by rw [hn]; rfl, fun hn => by rw [hn]; rfl,
        fun hn => by rw [hn]; rfl, fun hn => by rw [hn]; rfl, fun hn => by rw [hn]; rfl⟩
    · exact Except.noConfusion h

/-- C3 witness: the empty raw mapping instantiates the general part:
every field of the resulting config is its default. -/
theorem c3_default_completeness_witness :
    defaultConfig.symbols = "EURUSD,GBPUSD" ∧ defaultConfig.magicNumber = 424242 :=
  ⟨(c3_default_completeness.2 emptyRaw defaultConfig c3_default_completeness.1).1 rfl,
   ((c3_default_completeness.2 emptyRaw defaultConfig
      c3_default_completeness.1).2.2.2.2.2.2.2.2.2.2.2.2.2.2) rfl⟩

/-- C10: Implicit SSR behaviour: with window undefined the encoder
returns the empty string on every config, so even a valid parse shows
an empty payload and an invocation string whose quoted argument is
empty. -/
theorem c10_ssr_blank :
    (∀ c : StrategyConfig, toBase64 false c = "") ∧
    (∀ (raw : RawState) (c : StrategyConfig), safeParse raw = Except.ok c →
      b64Out false raw = "" ∧
      pythonCmd false raw = "python mt5_connector/connector.py --config-b64 \x27\x27") := by
  constructor
  · intro c; rfl
  · intro raw c h
    constructor
    · simp [b64Out, h, toBase64]
    · simp only [pythonCmd, h]
      rfl

/-- C10 witness: the default (valid) configuration rendered
server-side yields the empty payload and the empty-argument command. -/
theorem c10_ssr_blank_witness :
    b64Out false emptyRaw = "" ∧
    pythonCmd false emptyRaw = "python mt5_connector/connector.py --config-b64 \x27\x27" :=
  c10_ssr_blank.2 emptyRaw defaultConfig rfl

/-- C6: Enum enforcement: a raw timeframe (resp. liveTrading) string
validates exactly when it is a case-sensitive member of the fixed
token set; in particular "M16" fails with a MembershipError on
timeframe only, while "M15" succeeds. -/
theorem c6_enum_enforcement :
    (∀ s : String,
      exOk (safeParse (setField emptyRaw FieldName.timeframe (RawVal.str s))) = true ↔
      s ∈ tfTokens) ∧
    (∀ s : String,
      exOk (safeParse (setField emptyRaw FieldName.liveTrading (RawVal.str s))) = true ↔
      s ∈ liveTokens) ∧
    safeParse (setField emptyRaw FieldName.timeframe (RawVal.str "M16")) =
      Except.error [⟨FieldName.timeframe, RawVal.str "M16", ErrKind.membership⟩] ∧
    safeParse (setField emptyRaw FieldName.timeframe (RawVal.str "M15")) =
      Except.ok defaultConfig := by
  refine ⟨?_, ?_, rfl, rfl⟩
  · intro s
    by_cases hs : s ∈ tfTokens <;>
      simp [safeParse, setField, emptyRaw, checkEnum, checkString, checkNum, exOk, hs]
  · intro s
    by_cases hs : s ∈ liveTokens <;>
      simp [safeParse, setField, emptyRaw, checkEnum, checkString, checkNum, exOk, hs]

/-- C6 witness: instantiating the two general equivalences at the
concrete tokens "M15" and "false". -/
theorem c6_enum_enforcement_witness :
    exOk (safeParse (setField emptyRaw FieldName.timeframe (RawVal.str "M15"))) = true ∧
    exOk (safeParse (setField emptyRaw FieldName.liveTrading (RawVal.str "false"))) = true :=
  ⟨(c6_enum_enforcement.1 "M15").mpr (by decide),
   (c6_enum_enforcement.2.1 "false").mpr (by decide)⟩

/-- C7: Aggregation: a raw input with three simultaneously invalid
fields (a coercion failure on riskPerTradePct, a membership failure on
timeframe, a range failure on maxOpenPositions, every other field
valid) yields a failure listing exactly those three violations, one
per offending field, each carrying the field, the raw value and the
violated constraint. -/
theorem c7_aggregation :
    safeParse (setField (setField (setField emptyRaw
        FieldName.riskPerTradePct (RawVal.str "abc"))
        FieldName.timeframe (RawVal.str "M16"))
        FieldName.maxOpenPositions (RawVal.str "0")) =
      Except.error
        [⟨FieldName.timeframe, RawVal.str "M16", ErrKind.membership⟩,
         ⟨FieldName.riskPerTradePct, RawVal.str "abc", ErrKind.coercion⟩,
         ⟨FieldName.maxOpenPositions, RawVal.str "0", ErrKind.range⟩] := rfl

/-- C9 counterexample: the symbols non-emptiness invariant fails on
the code: z.string() performs no structural check, so the raw edit
symbols := "" parses successfully and the resulting config carries an
empty symbols string. -/
theorem c9_counterexample :
    ¬ (∀ (raw : RawState) (c : StrategyConfig),
        safeParse raw = Except.ok c → c.symbols ≠ "") := by
  intro h
  exact h (setField emptyRaw FieldName.symbols (RawVal.str ""))
    { defaultConfig with symbols := "" } rfl rfl

/-- C9 amended: successful validation imposes no structural constraint
on symbols: any string supplied for symbols, the empty string
included, validates (other fields held at their defaults) and is
carried into the config unchanged. -/
theorem c9_amended (s : String) :
    safeParse (setField emptyRaw FieldName.symbols (RawVal.str s)) =
      Except.ok { defaultConfig with symbols := s } := by
  simp [safeParse, setField, emptyRaw, checkString, checkEnum, checkNum, defaultConfig]

/-- The twelve bounded numeric fields of StrategySchema. -/
inductive NumField where
  | riskPerTradePct | maxOpenPositions | emaFast | emaSlow | rsiPeriod | atrPeriod
  | atrStopMultiplier | takeProfitRMultiple | trailingStopATR | dailyLossLimitPct
  | maxDrawdownPct | magicNumber
deriving DecidableEq

/-- The schema field corresponding to a bounded numeric field. -/
def numFieldName : NumField → FieldName
  | NumField.riskPerTradePct => FieldName.riskPerTradePct
  | NumField.maxOpenPositions => FieldName.maxOpenPositions
  | NumField.emaFast => FieldName.emaFast
  | NumField.emaSlow => FieldName.emaSlow
  | NumField.rsiPeriod => FieldName.rsiPeriod
  | NumField.atrPeriod => FieldName.atrPeriod
  | NumField.atrStopMultiplier => FieldName.atrStopMultiplier
  | NumField.takeProfitRMultiple => FieldName.takeProfitRMultiple
  | NumField.trailingStopATR => FieldName.trailingStopATR
  | NumField.dailyLossLimitPct => FieldName.dailyLossLimitPct
  | NumField.maxDrawdownPct => FieldName.maxDrawdownPct
  | NumField.magicNumber => FieldName.magicNumber

/-- Raw string equal to the field's documented minimum. -/
def minRawStr : NumField → String
  | NumField.riskPerTradePct => "0"
  | NumField.maxOpenPositions => "1"
  | NumField.emaFast => "2"
  | NumField.emaSlow => "5"
  | NumField.rsiPeriod => "2"
  | NumField.atrPeriod => "5"
  | NumField.atrStopMultiplier => "0.1"
  | NumField.takeProfitRMultiple => "0.1"
  | NumField.trailingStopATR => "0"
  | NumField.dailyLossLimitPct => "0"
  | NumField.maxDrawdownPct => "0"
  | NumField.magicNumber => "1"

/-- Raw string equal to the field's documented maximum. -/
def maxRawStr : NumField → String
  | NumField.riskPerTradePct => "10"
  | NumField.maxOpenPositions => "20"
  | NumField.emaFast => "200"
  | NumField.emaSlow => "400"
  | NumField.rsiPeriod => "50"
  | NumField.atrPeriod => "100"
  | NumField.atrStopMultiplier => "10"
  | NumField.takeProfitRMultiple => "10"
  | NumField.trailingStopATR => "10"
  | NumField.dailyLossLimitPct => "50"
  | NumField.maxDrawdownPct => "90"
  | NumField.magicNumber => "999999"

/-- Raw string one unit below the field's minimum. -/
def belowRawStr : NumField → String
  | NumField.riskPerTradePct => "-1"
  | NumField.maxOpenPositions => "0"
  | NumField.emaFast => "1"
  | NumField.emaSlow => "4"
  | NumField.rsiPeriod => "1"
  | NumField.atrPeriod => "4"
  | NumField.atrStopMultiplier => "-0.9"
  | NumField.takeProfitRMultiple => "-0.9"
  | NumField.trailingStopATR => "-1"
  | NumField.dailyLossLimitPct => "-1"
  | NumField.maxDrawdownPct => "-1"
  | NumField.magicNumber => "0"

/-- Raw string one unit above the field's maximum. -/
def aboveRawStr : NumField → String
  | NumField.riskPerTradePct => "11"
  | NumField.maxOpenPositions => "21"
  | NumField.emaFast => "201"
  | NumField.emaSlow => "401"
  | NumField.rsiPeriod => "51"
  | NumField.atrPeriod => "101"
  | NumField.atrStopMultiplier => "11"
  | NumField.takeProfitRMultiple => "11"
  | NumField.trailingStopATR => "11"
  | NumField.dailyLossLimitPct => "51"
  | NumField.maxDrawdownPct => "91"
  | NumField.magicNumber => "1000000"

/-- The field's minimum as a rational. -/
def minQ : NumField → ℚ
  | NumField.riskPerTradePct => 0
  | NumField.maxOpenPositions => 1
  | NumField.emaFast => 2
  | NumField.emaSlow => 5
  | NumField.rsiPeriod => 2
  | NumField.atrPeriod => 5
  | NumField.atrStopMultiplier => 1/10
  | NumField.takeProfitRMultiple => 1/10
  | NumField.trailingStopATR => 0
  | NumField.dailyLossLimitPct => 0
  | NumField.maxDrawdownPct => 0
  | NumField.magicNumber => 1

/-- The field's maximum as a rational. -/
def maxQ : NumField → ℚ
  | NumField.riskPerTradePct => 10
  | NumField.maxOpenPositions => 20
  | NumField.emaFast => 200
  | NumField.emaSlow => 400
  | NumField.rsiPeriod => 50
  | NumField.atrPeriod => 100
  | NumField.atrStopMultiplier => 10
  | NumField.takeProfitRMultiple => 10
  | NumField.trailingStopATR => 10
  | NumField.dailyLossLimitPct => 50
  | NumField.maxDrawdownPct => 90
  | NumField.magicNumber => 999999

/-- Overwrite one numeric field of a config. -/
def setConfigNum (c : StrategyConfig) : NumField → ℚ → StrategyConfig
  | NumField.riskPerTradePct, q => { c with riskPerTradePct := q }
  | NumField.maxOpenPositions, q => { c with maxOpenPositions := q }
  | NumField.emaFast, q => { c with emaFast := q }
  | NumField.emaSlow, q => { c with emaSlow := q }
  | NumField.rsiPeriod, q => { c with rsiPeriod := q }
  | NumField.atrPeriod, q => { c with atrPeriod := q }
  | NumField.atrStopMultiplier, q => { c with atrStopMultiplier := q }
  | NumField.takeProfitRMultiple, q => { c with takeProfitRMultiple := q }
  | NumField.trailingStopATR, q => { c with trailingStopATR := q }
  | NumField.dailyLossLimitPct, q => { c with dailyLossLimitPct := q }
  | NumField.maxDrawdownPct, q => { c with maxDrawdownPct := q }
  | NumField.magicNumber, q => { c with magicNumber := q }

/-- C4: Range enforcement with inclusive endpoints: for every bounded
numeric field, the raw minimum and maximum strings validate to exactly
those boundary values (all other fields at their valid defaults), and
one unit below the minimum or above the maximum fails with a single
RangeError on that field only. -/
theorem c4_range_boundaries :
    ∀ f : NumField,
      safeParse (setField emptyRaw (numFieldName f) (RawVal.str (minRawStr f))) =
        Except.ok (setConfigNum defaultConfig f (minQ f)) ∧
      safeParse (setField emptyRaw (numFieldName f) (RawVal.str (maxRawStr f))) =
        Except.ok (setConfigNum defaultConfig f (maxQ f)) ∧
      safeParse (setField emptyRaw (numFieldName f) (RawVal.str (belowRawStr f))) =
        Except.error [⟨numFieldName f, RawVal.str (belowRawStr f), ErrKind.range⟩] ∧
      safeParse (setField emptyRaw (numFieldName f) (RawVal.str (aboveRawStr f))) =
        Except.error [⟨numFieldName f, RawVal.str (aboveRawStr f), ErrKind.range⟩] := by
  intro f
  cases f <;> refine ⟨?_, ?_, ?_, ?_⟩ <;> with_unfolding_all rfl

/-- C5: Coercion: on every bounded numeric field, a raw string on
which JS Number(...) yields NaN fails with a CoercionError on that
field alone (never silently replaced by a default); concretely "abc"
and "NaN" fail with CoercionError, "Infinity" is rejected, and a
whitespace-padded standard decimal is accepted at its parsed value. -/
theorem c5_coercion :
    (∀ (f : NumField) (s : String),
      jsStringToNumber s = JsNum.nan →
      safeParse (setField emptyRaw (numFieldName f) (RawVal.str s)) =
        Except.error [⟨numFieldName f, RawVal.str s, ErrKind.coercion⟩]) ∧
    (∀ f : NumField,
      safeParse (setField emptyRaw (numFieldName f) (RawVal.str "abc")) =
        Except.error [⟨numFieldName f, RawVal.str "abc", ErrKind.coercion⟩] ∧
      safeParse (setField emptyRaw (numFieldName f) (RawVal.str "NaN")) =
        Except.error [⟨numFieldName f, RawVal.str "NaN", ErrKind.coercion⟩] ∧
      exOk (safeParse (setField emptyRaw (numFieldName f) (RawVal.str "Infinity"))) = false ∧
      safeParse (setField emptyRaw (numFieldName f)
          (RawVal.str (" " ++ minRawStr f ++ "  "))) =
        Except.ok (setConfigNum defaultConfig f (minQ f))) := by
  constructor
  · intro f s h
    cases f <;>
      · simp only [numFieldName, setField, emptyRaw]
        simp [safeParse, checkNum, checkString, checkEnum, jsToNumber, h]
  · intro f
    cases f <;> refine ⟨?_, ?_, ?_, ?_⟩ <;> with_unfolding_all rfl

/-- C5 witness: the general NaN clause applied to the concrete
non-numeric raw string "xyz" on riskPerTradePct. -/
theorem c5_coercion_witness :
    safeParse (setField emptyRaw FieldName.riskPerTradePct (RawVal.str "xyz")) =
      Except.error [⟨FieldName.riskPerTradePct, RawVal.str "xyz", ErrKind.coercion⟩] :=
  c5_coercion.1 NumField.riskPerTradePct "xyz" rfl

/-- No character of the base-64 alphabet is a line break. -/
theorem b64Alphabet_no_newline : ∀ ch ∈ b64AlphabetStr.data, ch ≠ '\n' := by decide

/-- No character of the literal command head is a line break. -/
theorem cmdHead_no_newline : ∀ ch ∈ cmdHead.data, ch ≠ '\n' := by decide

/-- Characters of an encoded byte string lie in the alphabet. -/
theorem b64encodeBytes_subset (l : List Nat) :
    ∀ ch ∈ (b64encodeBytes l).data, ch ∈ b64AlphabetStr.data := by
  intro ch h
  have he : (b64encodeBytes l).data = b64encodeAux l := rfl
  rw [he] at h
  exact b64encodeAux_subset l ch h

/-- Every character of the encoded payload is drawn from the base-64
alphabet A-Z a-z 0-9 + / =. -/
theorem toBase64_alphabet (wd : Bool) (c : StrategyConfig) :
    ∀ ch ∈ (toBase64 wd c).data, ch ∈ b64AlphabetStr.data := by
  cases wd with
  | false =>
    intro ch h
    rw [show toBase64 false c = "" from rfl] at h
    rw [show ("" : String).data = [] from rfl] at h
    exact absurd h (List.not_mem_nil ch)
  | true =>
    intro ch h
    rw [show toBase64 true c = b64encodeBytes (utf8Encode (serializeConfig c)) from rfl] at h
    exact b64encodeBytes_subset _ ch h

/-- C8: Invocation string format: on every successful parse the
displayed command is exactly the literal executor invocation with the
payload as the single-quoted final argument; the payload uses only the
base-64 alphabet and the whole command is a single line. -/
theorem c8_invocation_format :
    ∀ (wd : Bool) (raw : RawState) (c : StrategyConfig),
      safeParse raw = Except.ok c →
      pythonCmd wd raw =
        "python mt5_connector/connector.py --config-b64 \x27" ++ toBase64 wd c ++ "\x27" ∧
      (∀ ch ∈ (toBase64 wd c).data, ch ∈ b64AlphabetStr.data) ∧
      (∀ ch ∈ (pythonCmd wd raw).data, ch ≠ '\n') := by
  intro wd raw c h
  have hcmd : pythonCmd wd raw = cmdHead ++ toBase64 wd c ++ "\x27" := by
    simp [pythonCmd, h]
  refine ⟨hcmd, toBase64_alphabet wd c, ?_⟩
  intro ch hch
  rw [hcmd] at hch
  rw [String.data_append, String.data_append] at hch
  rcases List.mem_append.mp hch with hch | hch
  · rcases List.mem_append.mp hch with hch | hch
    · exact cmdHead_no_newline ch hch
    · exact b64Alphabet_no_newline ch (toBase64_alphabet wd c ch hch)
  · intro hne
    subst hne
    simp at hch

/-- C8 witness: the exact command shape at the default (valid)
configuration in the browser environment. -/
theorem c8_invocation_format_witness :
    pythonCmd true emptyRaw =
      "python mt5_connector/connector.py --config-b64 \x27" ++
        toBase64 true defaultConfig ++ "\x27" :=
  (c8_invocation_format true emptyRaw defaultConfig rfl).1
